import Mathlib

/-!
Shallow embedding of the spending-tracker repository (Rust sources:
src/main.rs, src/bot.rs, src/model.rs, src/model/schema.rs,
src/model/test_data.rs) together with theorems settling the frozen claims.

Conventions of the embedding:
- The SQLite connection state is modelled as an explicit record of the
  persisted user_version pragma (an i32 in the source, modelled as Int),
  the list of created tables, and the rows of each table of SCHEMA_V1.
- Rust panics are modelled as an error value returned next to the
  unchanged state, so that "performs no write" is directly expressible.
- f64 parsing (str::parse in handle_message) is modelled by the grammar
  that Rust f64::from_str accepts: an optional sign followed by one of
  the case-insensitive keywords inf / infinity / nan, or a decimal
  number with optional fractional part and optional decimal exponent.
  A finite literal is kept exactly as a sign, a mantissa and a power of
  ten, so its mathematical value is an exact rational.
- Machine integers (u64 ids, i64 timestamps) are modelled as Nat where
  no overflow can occur, REAL columns as Rat.
-/

/-! ## Database state (rusqlite connection contents) -/

/-- Row of the Currency table of SCHEMA_V1. -/
structure CurrencyRow where
  id : Nat
  name : String
deriving DecidableEq

/-- Row of the Account table of SCHEMA_V1. -/
structure AccountRow where
  id : Nat
  name : String
  displayName : Option String
  currencyId : Nat
deriving DecidableEq

/-- Row of the User table of SCHEMA_V1. -/
structure UserRow where
  telegramId : Nat
  telegramName : String
  displayName : String
deriving DecidableEq

/-- Row of the ExpenseCategory table of SCHEMA_V1. -/
structure CategoryRow where
  id : Nat
  name : String
  active : Bool
  comments : Option String
  sortingOrder : Option Nat
deriving DecidableEq

/-- Row of the Expense table of SCHEMA_V1. -/
structure ExpenseRow where
  id : Nat
  accountId : Nat
  categoryId : Nat
  userId : Nat
  timestamp : Nat
  amount : Rat
  comments : Option String
deriving DecidableEq

/-- State of the SQLite database behind a rusqlite connection: the
persisted user_version pragma (a signed 32-bit integer in SQLite,
modelled as Int), the names of the created tables, and the rows of the
five tables of SCHEMA_V1. -/
structure DbState where
  user_version : Int
  tables : List String
  currencies : List CurrencyRow
  users : List UserRow
  accounts : List AccountRow
  categories : List CategoryRow
  expenses : List ExpenseRow
deriving DecidableEq

/-- State of a freshly opened (in-memory) connection: user_version 0,
no tables, no rows. -/
def emptyDb : DbState :=
  { user_version := 0, tables := [], currencies := [], users := [],
    accounts := [], categories := [], expenses := [] }

/-! ## src/model/schema.rs (the Rust module schema) -/

namespace Schema

/-- Tables created by the CREATE TABLE statements of SCHEMA_V1, in
batch order. -/
def schemaV1Tables : List String :=
  ["Currency", "Account", "User", "ExpenseCategory", "Expense"]

/-- Embedding of init_schema_v1 (schema.rs lines 99-103): executes the
SCHEMA_V1 batch, creating the five tables, then sets the user_version
pragma to 1. -/
def init_schema_v1 (db : DbState) : DbState :=
  { db with tables := db.tables ++ schemaV1Tables, user_version := 1 }

/-- Failure mode of init_schema: the Rust code panics with the message
"Unsupported schema version: v" on any version other than 0 or 1. -/
inductive SchemaError where
  | unsupportedSchemaVersion : Int → SchemaError
deriving DecidableEq

/-- Embedding of init_schema (schema.rs lines 78-97): reads the
user_version pragma and matches on it; 0 runs init_schema_v1, 1 does
nothing, and every other value panics. The panic is modelled as an
error value returned next to the untouched database state. -/
def init_schema (db : DbState) : DbState × Option SchemaError :=
  if db.user_version = 0 then (init_schema_v1 db, none)
  else if db.user_version = 1 then (db, none)
  else (db, some (SchemaError.unsupportedSchemaVersion db.user_version))

/-- Embedding of fill_test_data (schema.rs lines 105-107): executes the
TEST_DATA insert batch. AUTOINCREMENT ids continue from the current
number of rows of each table; User rows carry explicit telegramId keys.
Timestamps are the epoch seconds the strftime calls yield. -/
def fill_test_data (db : DbState) : DbState :=
  { db with
    currencies := db.currencies ++
      [ { id := db.currencies.length + 1, name := "EUR" },
        { id := db.currencies.length + 2, name := "USD" },
        { id := db.currencies.length + 3, name := "BYN" } ],
    users := db.users ++
      [ { telegramId := 1001, telegramName := "alex_bot", displayName := "Alex" },
        { telegramId := 1002, telegramName := "hanna_bot", displayName := "Hanna" } ],
    accounts := db.accounts ++
      [ { id := db.accounts.length + 1, name := "Savings",
          displayName := some "Alex Savings", currencyId := 1 },
        { id := db.accounts.length + 2, name := "Expenses",
          displayName := some "Hanna Daily", currencyId := 2 },
        { id := db.accounts.length + 3, name := "Family Fund",
          displayName := some "Family BYN", currencyId := 3 } ],
    categories := db.categories ++
      [ { id := db.categories.length + 1, name := "Groceries", active := true,
          comments := some "Food and daily groceries", sortingOrder := some 1 },
        { id := db.categories.length + 2, name := "Transportation", active := true,
          comments := some "Bus, taxi, fuel expenses", sortingOrder := some 2 },
        { id := db.categories.length + 3, name := "Entertainment", active := true,
          comments := some "Movies, concerts, etc.", sortingOrder := some 3 },
        { id := db.categories.length + 4, name := "Utilities", active := true,
          comments := some "Electricity, water, internet bills", sortingOrder := some 4 } ],
    expenses := db.expenses ++
      [ { id := db.expenses.length + 1, accountId := 1, categoryId := 1, userId := 1001,
          timestamp := 1701424800, amount := (203 : Rat) / 4,
          comments := some "Bought groceries for the week" },
        { id := db.expenses.length + 2, accountId := 2, categoryId := 2, userId := 1002,
          timestamp := 1701520200, amount := 20,
          comments := some "Taxi ride to the office" },
        { id := db.expenses.length + 3, accountId := 3, categoryId := 3, userId := 1001,
          timestamp := 1701626400, amount := 30,
          comments := some "Cinema tickets for family" },
        { id := db.expenses.length + 4, accountId := 2, categoryId := 4, userId := 1002,
          timestamp := 1701720000, amount := 100,
          comments := some "Paid electricity bill" } ] }

end Schema

/-! ## src/model.rs -/

/-- Embedding of struct AccountInfo (model.rs lines 24-27). -/
structure AccountInfo where
  id : Nat
  display_name : String
deriving DecidableEq

/-- Embedding of struct CategoryInfo (model.rs lines 29-33). -/
structure CategoryInfo where
  id : Nat
  display_name : String
deriving DecidableEq

/-- Embedding of struct ActiveTransaction (model.rs lines 12-21). The
amount field is an f32 in the source; every value it ever holds in the
source (the literal 123.0) is exactly representable, so it is modelled
as Rat. The chrono timestamp is kept opaque as a String. -/
structure ActiveTransaction where
  amount : Rat
  comments : String
  user_name : String
  timestamp : String
  account_info : AccountInfo
  category_info : CategoryInfo
deriving DecidableEq

/-- Embedding of struct Model (model.rs lines 8-10): owns the rusqlite
connection, modelled by the database state behind it. -/
structure Model where
  connection : DbState
deriving DecidableEq

/-- Embedding of Model::new (model.rs lines 36-55) for the in-memory
case: opens a fresh connection (user_version 0) and runs init_schema
on it. On a fresh connection init_schema never reaches its panic
branch, so the error component is dropped. -/
def Model.new : Model :=
  { connection := (Schema.init_schema emptyDb).1 }

/-- Embedding of Model::fill_test_data (model.rs lines 58-60). -/
def Model.fill_test_data (self : Model) : Model :=
  { connection := Schema.fill_test_data self.connection }

/-- Embedding of Model::get_accounts (model.rs lines 73-88): returns a
hardcoded vector of three AccountInfo values; the connection is never
consulted. -/
def Model.get_accounts (self : Model) : List AccountInfo :=
  [ { id := 1, display_name := "User1" },
    { id := 2, display_name := "User2" },
    { id := 3, display_name := "User3" } ]

/-- Embedding of Model::get_categories (model.rs lines 95-110): returns
a hardcoded vector of three CategoryInfo values; the connection is
never consulted. -/
def Model.get_categories (self : Model) : List CategoryInfo :=
  [ { id := 1, display_name := "Category 1" },
    { id := 2, display_name := "Category 2" },
    { id := 3, display_name := "Category 3" } ]

/-- Embedding of Model::get_account_info (model.rs lines 90-93): finds
the first element of get_accounts whose id equals the argument. -/
def Model.get_account_info (self : Model) (id : Nat) : Option AccountInfo :=
  self.get_accounts.find? (fun a => a.id == id)

/-- Embedding of Model::make_active_transaction (model.rs lines 62-71):
builds an ActiveTransaction with the hardcoded amount 123.0, hardcoded
comments and user name, the current time, and the first entries of
get_accounts and get_categories. The .get(0).unwrap() calls of the
source panic on an empty vector; the panic is modelled as none. -/
def Model.make_active_transaction (self : Model) (now : String) : Option ActiveTransaction :=
  match self.get_accounts.head?, self.get_categories.head? with
  | some a, some c =>
      some { amount := 123, comments := "My comments", user_name := "My user",
             timestamp := now, account_info := a, category_info := c }
  | _, _ => none

/-! ## src/bot.rs -/

/-- Embedding of struct TransactionKey (bot.rs lines 3-6): the u64
fields are modelled as Nat. -/
structure TransactionKey where
  telegram_user_id : Nat
  message_id : Nat
deriving DecidableEq

/-- Embedding of enum TransactionState (bot.rs lines 12-16): the
conversation-state type the repository actually defines. It has
exactly the three nullary variants Initial, AccountEditing and
CategoryEditing. -/
inductive TransactionState where
  | Initial : TransactionState
  | AccountEditing : TransactionState
  | CategoryEditing : TransactionState
deriving DecidableEq, Fintype

/-- Inbound text message as far as the handlers consult it: the
optional text content and the optional username of the sender. -/
structure MessageEvent where
  text : Option String
  username : Option String
deriving DecidableEq

/-- Inbound callback query as far as the handlers consult it: the
optional data payload carrying the callback identifier. -/
structure CallbackQueryEvent where
  data : Option String
deriving DecidableEq

/-- Embedding of struct SpendingTrackerBot (bot.rs lines 8-10): the
HashMap from TransactionKey to TransactionState is modelled as an
association list. -/
structure SpendingTrackerBot where
  transactions : List (TransactionKey × TransactionState)
deriving DecidableEq

/-- Embedding of SpendingTrackerBot::new (bot.rs lines 19-23). -/
def SpendingTrackerBot.new : SpendingTrackerBot :=
  { transactions := [] }

/-- Embedding of SpendingTrackerBot::handle_message (bot.rs lines
25-26): the body of the source method is empty, so the registry and
every state are left unchanged. -/
def SpendingTrackerBot.handle_message (self : SpendingTrackerBot)
    (message : MessageEvent) : SpendingTrackerBot :=
  self

/-- Embedding of SpendingTrackerBot::handle_callback_query (bot.rs
lines 28-29): the body of the source method is empty, so the registry
and every state are left unchanged. -/
def SpendingTrackerBot.handle_callback_query (self : SpendingTrackerBot)
    (callback_query : CallbackQueryEvent) : SpendingTrackerBot :=
  self

/-! ## Rust f64 parsing (str::parse in src/main.rs)

The grammar accepted by f64 from_str: an optional sign, followed by one
of the case-insensitive keywords inf, infinity, nan, or by a decimal
number made of an integer digit run and an optional fractional digit
run (at least one digit overall, and the fractional run mandatory when
the integer run is absent and a dot is present), optionally followed by
a decimal exponent introduced by e or E with an optional sign and at
least one digit. The whole input must be consumed. A finite literal of
sign b, digits m and scale s denotes the rational
(if b then -1 else 1) * m * 10 ^ s. -/

/-- Numeric value of a digit run, most significant digit first. -/
def digitsVal (ds : List Char) : Nat :=
  ds.foldl (fun n c => 10 * n + (c.toNat - 48)) 0

/-- Splits the longest leading run of ASCII digits from the rest. -/
def takeDigits : List Char → List Char × List Char
  | [] => ([], [])
  | c :: cs =>
    if c.isDigit then
      let p := takeDigits cs
      (c :: p.1, p.2)
    else ([], c :: cs)

/-- Result of parsing a string with Rust f64 from_str: a NaN keyword, a
signed infinity keyword, or a finite decimal literal kept exactly as a
sign, a mantissa and a power of ten. -/
inductive ParsedF64 where
  | nan : ParsedF64
  | inf : Bool → ParsedF64
  | num : Bool → Nat → Int → ParsedF64
deriving DecidableEq

/-- Exact rational value of a finite parsed literal; none for the NaN
and infinity keywords. -/
def ParsedF64.toRat : ParsedF64 → Option Rat
  | ParsedF64.num neg m s =>
      some ((if neg then -(m : Rat) else (m : Rat)) * (10 : Rat) ^ s)
  | _ => none

/-- Parses the part of an f64 literal after the optional sign. -/
def parseAfterSign (cs : List Char) (neg : Bool) : Option ParsedF64 :=
  let lower := cs.map Char.toLower
  if lower = "inf".toList ∨ lower = "infinity".toList then some (ParsedF64.inf neg)
  else if lower = "nan".toList then some ParsedF64.nan
  else
    let ip := takeDigits cs
    let intDs := ip.1
    let fp : Bool × List Char × List Char :=
      match ip.2 with
      | '.' :: r =>
        let q := takeDigits r
        (true, q.1, q.2)
      | _ => (false, [], ip.2)
    let hasDot := fp.1
    let fracDs := fp.2.1
    let r2 := fp.2.2
    if intDs = [] ∧ (hasDot = false ∨ fracDs = []) then none
    else
      let mant := digitsVal (intDs ++ fracDs)
      let fl : Int := (fracDs.length : Int)
      match r2 with
      | [] => some (ParsedF64.num neg mant (-fl))
      | e :: r3 =>
        if e = 'e' ∨ e = 'E' then
          let sp : Bool × List Char :=
            match r3 with
            | '-' :: r => (true, r)
            | '+' :: r => (false, r)
            | _ => (false, r3)
          let ep := takeDigits sp.2
          if ep.1 = [] ∨ ep.2 ≠ [] then none
          else
            let ev : Int := (digitsVal ep.1 : Int)
            some (ParsedF64.num neg mant ((if sp.1 then -ev else ev) - fl))
        else none

/-- Embedding of text.parse::<f64>() : consumes an optional leading
sign and hands the rest to parseAfterSign; none models Err. -/
def parse_f64 (s : String) : Option ParsedF64 :=
  match s.toList with
  | '-' :: rest => parseAfterSign rest true
  | '+' :: rest => parseAfterSign rest false
  | cs => parseAfterSign cs false

/-! ## src/main.rs -/

/-- Content of the prompt message handle_message sends on a parsed
amount: the parsed amount shown on the first button, the rendered
timestamp, the resolved username, and the hardcoded account and
currency strings. The attached keyboard offers the callback
identifiers edit_amount, edit_timestamp, edit_account, edit_currency
and commit (there is no edit_category button). -/
structure ExpensePrompt where
  amount : ParsedF64
  timestamp : String
  user : String
  account : String
  currency : String
deriving DecidableEq

/-- Observable reply of handle_message (main.rs lines 24-72): the
expense prompt with its inline keyboard, the invalid-amount message
"Please send a valid amount.", or no message at all when the update
carries no text. -/
inductive Reply where
  | expensePrompt : ExpensePrompt → Reply
  | invalidAmount : Reply
  | noReply : Reply
deriving DecidableEq

/-- Embedding of handle_message (main.rs lines 24-72): if the message
has text and the text parses as an f64, it sends the expense prompt
with amount the parsed value, timestamp the current time, user the
username of the sender defaulted to "unknown", account the hardcoded
"default_account" and currency the hardcoded "USD"; if the text fails
to parse it sends "Please send a valid amount."; with no text it does
nothing. No draft registry and no model are consulted or written. -/
def handle_message (message : MessageEvent) (now : String) : Reply :=
  match message.text with
  | none => Reply.noReply
  | some t =>
    match parse_f64 t with
    | some a =>
        Reply.expensePrompt
          { amount := a, timestamp := now,
            user := message.username.getD "unknown",
            account := "default_account", currency := "USD" }
    | none => Reply.invalidAmount

/-- Observable reply of handle_callback_query (main.rs lines 74-117):
one of the four edit prompts, the commit acknowledgement "Expense
saved successfully!", or the rejection "Unknown action.". -/
inductive CallbackReply where
  | prompt : String → CallbackReply
  | saved : CallbackReply
  | unknownAction : CallbackReply
deriving DecidableEq

/-- Embedding of handle_callback_query (main.rs lines 74-117): matches
the callback data against the five handled identifiers; anything else
falls to the wildcard arm answering "Unknown action.". The source
touches no database whatsoever (the commit arm only sends a message;
its body is the comment to implement SQLite logic); the DbState is
threaded through unchanged to make that explicit. The trailing
answer_callback_query and edit_message_text calls are chat-transport
glue and carry no state. -/
def handle_callback_query (q : CallbackQueryEvent) (db : DbState) :
    Option CallbackReply × DbState :=
  match q.data with
  | none => (none, db)
  | some d =>
    if d = "edit_amount" then (some (CallbackReply.prompt "Send the new amount:"), db)
    else if d = "edit_timestamp" then (some (CallbackReply.prompt "Send the new timestamp:"), db)
    else if d = "edit_account" then (some (CallbackReply.prompt "Send the new account:"), db)
    else if d = "edit_currency" then (some (CallbackReply.prompt "Send the new currency:"), db)
    else if d = "commit" then (some CallbackReply.saved, db)
    else (some CallbackReply.unknownAction, db)

/-! ## Definitions following the words of the spec

These definitions are not translations of any source function; they
render the vocabulary of spec.md so that refinement claims can compare
the source against it. -/

/-- Field under edit in the state machine of spec.md section 4.3:
amount, timestamp, account, category or currency. -/
inductive SpecField where
  | amount : SpecField
  | timestamp : SpecField
  | account : SpecField
  | category : SpecField
  | currency : SpecField
deriving DecidableEq, Fintype

/-- Conversation state exactly as spec.md section 4.3 words it: the
closed tagged union of AwaitingFieldChoice, AwaitingFieldValue over
the five fields, and Committed (seven states in total). -/
inductive SpecConversationState where
  | awaitingFieldChoice : SpecConversationState
  | awaitingFieldValue : SpecField → SpecConversationState
  | committed : SpecConversationState
deriving DecidableEq, Fintype

/-- Amount validity as spec.md section 4.3 words it: the text must
parse as a number that is finite (so not a NaN or infinity keyword)
and whose value is non-negative. -/
def specValidAmount (s : String) : Bool :=
  match parse_f64 s with
  | some p =>
      match p.toRat with
      | some v => decide (0 ≤ v)
      | none => false
  | none => false

/-! ## Helper lemmas -/

/-- Closed form of Model.get_account_info: lookup over the hardcoded
three-element account vector. -/
theorem get_account_info_eq (m : Model) (n : Nat) :
    m.get_account_info n
      = if n = 1 then some { id := 1, display_name := "User1" }
        else if n = 2 then some { id := 2, display_name := "User2" }
        else if n = 3 then some { id := 3, display_name := "User3" }
        else none := by
  by_cases h1 : n = 1
  · subst h1; rfl
  · by_cases h2 : n = 2
    · subst h2; rfl
    · by_cases h3 : n = 3
      · subst h3; rfl
      · have e1 : (1 == n) = false := by simp [Ne.symm h1]
        have e2 : (2 == n) = false := by simp [Ne.symm h2]
        have e3 : (3 == n) = false := by simp [Ne.symm h3]
        simp [Model.get_account_info, Model.get_accounts, List.find?,
              e1, e2, e3, h1, h2, h3]

/-! ## Claim C1 -/

/-- Claim C1, counterexample: the claim quantifies over every starting
version V with V at most 1, but the version field is a signed 32-bit
integer, and on a store holding user_version -1 init_schema reaches
its panic arm instead of leaving the store at version 1. -/
theorem C1_counterexample :
    ¬ ((Schema.init_schema { emptyDb with user_version := -1 }).2 = none
       ∧ (Schema.init_schema { emptyDb with user_version := -1 }).1.user_version = 1) := by
  decide

/-- Claim C1 (amended): for every starting version V with 0 ≤ V ≤ 1,
init_schema succeeds, leaves the store at exactly version 1, and
running it again afterwards is a no-op that changes nothing. -/
theorem C1_amended (db : DbState) (h0 : 0 ≤ db.user_version) (h1 : db.user_version ≤ 1) :
    (Schema.init_schema db).2 = none
    ∧ (Schema.init_schema db).1.user_version = 1
    ∧ Schema.init_schema (Schema.init_schema db).1 = ((Schema.init_schema db).1, none) := by
  have h : db.user_version = 0 ∨ db.user_version = 1 := by omega
  rcases h with h | h <;>
    simp [Schema.init_schema, Schema.init_schema_v1, h]

/-- Claim C1, witness: the amended theorem applied to the fresh store
of version 0. -/
theorem C1_witness :
    (Schema.init_schema emptyDb).2 = none
    ∧ (Schema.init_schema emptyDb).1.user_version = 1
    ∧ Schema.init_schema (Schema.init_schema emptyDb).1
        = ((Schema.init_schema emptyDb).1, none) :=
  C1_amended emptyDb (by decide) (by decide)

/-! ## Claim C2 -/

/-- Claim C2: on every starting version V with V > 1, init_schema
fails with the unsupported-schema-version panic (fatal to startup) and
performs no write: neither the tables nor the version marker change,
the returned state being exactly the input state. -/
theorem C2_version_too_new (db : DbState) (h : 1 < db.user_version) :
    Schema.init_schema db
      = (db, some (Schema.SchemaError.unsupportedSchemaVersion db.user_version)) := by
  have h0 : ¬ db.user_version = 0 := by omega
  have h1 : ¬ db.user_version = 1 := by omega
  simp [Schema.init_schema, h0, h1]

/-- Claim C2, witness: the theorem applied to a store at version 2. -/
theorem C2_witness :
    Schema.init_schema { emptyDb with user_version := 2 }
      = ({ emptyDb with user_version := 2 },
         some (Schema.SchemaError.unsupportedSchemaVersion 2)) :=
  C2_version_too_new { emptyDb with user_version := 2 } (by decide)

/-! ## Claim C3 -/

/-- Claim C3: evaluation of the commit branch of handle_callback_query
at the failing input. For every database state, the commit callback
reports "Expense saved successfully!" while validating nothing and
writing nothing: the store is returned unchanged, so no Expense row is
ever inserted and no dangling reference is ever rejected. -/
theorem C3_commit_writes_nothing (db : DbState) :
    handle_callback_query { data := some "commit" } db
      = (some CallbackReply.saved, db) := rfl

/-! ## Claim C4 -/

/-- Claim C4, counterexample: on input text "50.75" the handler does
build a prompt with amount 50.75, but its account field is the
hardcoded string "default_account", which is not the display name of
any account of the account listing, whose first element is the account
with id 1 and display name "User1"; no draft registry is written. -/
theorem C4_counterexample :
    handle_message { text := some "50.75", username := some "alex" } "2023-12-05T10:00:00Z"
      = Reply.expensePrompt
          { amount := ParsedF64.num false 5075 (-2), timestamp := "2023-12-05T10:00:00Z",
            user := "alex", account := "default_account", currency := "USD" }
    ∧ Model.new.get_accounts.head? = some { id := 1, display_name := "User1" }
    ∧ "default_account" ∉ Model.new.get_accounts.map (fun a => a.display_name) :=
  ⟨rfl, rfl, by decide⟩

/-- Claim C4 (amended): on input text "50.75" with any sender,
handle_message replies with the expense prompt whose amount is the
parsed value 50.75 (exactly the rational 203/4), whose account is the
hardcoded string "default_account" rather than an entry of the account
listing, whose currency is the hardcoded "USD" (the model exposes no
currency listing), and no conversation state is recorded anywhere. -/
theorem C4_amended (u : Option String) (now : String) :
    handle_message { text := some "50.75", username := u } now
      = Reply.expensePrompt
          { amount := ParsedF64.num false 5075 (-2), timestamp := now,
            user := u.getD "unknown", account := "default_account", currency := "USD" }
    ∧ (ParsedF64.num false 5075 (-2)).toRat = some ((203 : Rat) / 4) := by
  refine ⟨rfl, ?_⟩
  simp [ParsedF64.toRat]
  norm_num

/-! ## Claim C5 -/

/-- Claim C5, counterexample: the callback identifier edit_category,
which the claim places inside the accepted set, falls to the wildcard
arm and is answered "Unknown action." exactly like a bogus
identifier. -/
theorem C5_counterexample :
    handle_callback_query { data := some "edit_category" } emptyDb
      = (some CallbackReply.unknownAction, emptyDb) := rfl

/-- Claim C5 (amended): the set of identifiers handle_callback_query
accepts is the five-element set edit_amount, edit_timestamp,
edit_account, edit_currency, commit; every identifier outside it,
edit_category included, is answered with the user-visible message
"Unknown action." and the handler returns normally (no crash), the
store unchanged; each of the five accepted identifiers is handled by
its own arm. -/
theorem C5_amended (db : DbState) (d : String)
    (h : ¬ (d = "edit_amount" ∨ d = "edit_timestamp" ∨ d = "edit_account"
            ∨ d = "edit_currency" ∨ d = "commit")) :
    handle_callback_query { data := some d } db = (some CallbackReply.unknownAction, db)
    ∧ handle_callback_query { data := some "edit_amount" } db
        = (some (CallbackReply.prompt "Send the new amount:"), db)
    ∧ handle_callback_query { data := some "edit_timestamp" } db
        = (some (CallbackReply.prompt "Send the new timestamp:"), db)
    ∧ handle_callback_query { data := some "edit_account" } db
        = (some (CallbackReply.prompt "Send the new account:"), db)
    ∧ handle_callback_query { data := some "edit_currency" } db
        = (some (CallbackReply.prompt "Send the new currency:"), db)
    ∧ handle_callback_query { data := some "commit" } db
        = (some CallbackReply.saved, db) := by
  push_neg at h
  obtain ⟨h1, h2, h3, h4, h5⟩ := h
  refine ⟨?_, rfl, rfl, rfl, rfl, rfl⟩
  simp [handle_callback_query, h1, h2, h3, h4, h5]

/-- Claim C5, witness: the amended theorem applied to the identifier
"bogus" against the empty store. -/
theorem C5_witness :
    handle_callback_query { data := some "bogus" } emptyDb
      = (some CallbackReply.unknownAction, emptyDb) :=
  (C5_amended emptyDb "bogus" (by decide)).1

/-! ## Claim C6 -/

/-- Claim C6, counterexample: the conversation-state type of the
source, TransactionState, cannot be identified with the claimed closed
union of AwaitingFieldChoice, AwaitingFieldValue over five fields, and
Committed: the former has three states and the latter seven, so no
bijection between them exists. -/
theorem C6_counterexample :
    ¬ ∃ f : SpecConversationState → TransactionState, Function.Bijective f := by
  rintro ⟨f, hf⟩
  have hc := Fintype.card_of_bijective hf
  have h7 : Fintype.card SpecConversationState = 7 := by decide
  have h3 : Fintype.card TransactionState = 3 := by decide
  omega

/-- Claim C6 (amended): the conversation state of the source is the
closed tagged union of exactly the three nullary states Initial,
AccountEditing and CategoryEditing, pairwise distinct; the bot event
handlers are unimplemented, so every state/input combination leaves
the registry and every draft unchanged. -/
theorem C6_amended (b : SpendingTrackerBot) (m : MessageEvent) (q : CallbackQueryEvent) :
    (∀ t : TransactionState, t = TransactionState.Initial
        ∨ t = TransactionState.AccountEditing ∨ t = TransactionState.CategoryEditing)
    ∧ (TransactionState.Initial ≠ TransactionState.AccountEditing
        ∧ TransactionState.Initial ≠ TransactionState.CategoryEditing
        ∧ TransactionState.AccountEditing ≠ TransactionState.CategoryEditing)
    ∧ b.handle_message m = b
    ∧ b.handle_callback_query q = b := by
  refine ⟨?_, by decide, rfl, rfl⟩
  intro t
  cases t <;> simp

/-! ## Claim C7 -/

/-- Claim C7, counterexample: the input "-5" parses as an f64, so the
handler accepts it and builds an expense prompt with the negative
amount, while the validity predicate of the spec (finite and
non-negative) rejects it. -/
theorem C7_counterexample :
    handle_message { text := some "-5", username := none } "T"
      = Reply.expensePrompt
          { amount := ParsedF64.num true 5 0, timestamp := "T", user := "unknown",
            account := "default_account", currency := "USD" }
    ∧ specValidAmount "-5" = false := by
  refine ⟨rfl, ?_⟩
  have hp : parse_f64 "-5" = some (ParsedF64.num true 5 0) := rfl
  simp [specValidAmount, hp, ParsedF64.toRat]

/-- Claim C7 (amended): a textual input is accepted as an amount if
and only if it parses under the Rust f64 grammar, which also accepts
negative numbers, infinities and NaN; on a parse failure the handler
replies with the validation message "Please send a valid amount." and
nothing is created; no draft is stored in either case. -/
theorem C7_amended (t : String) (u : Option String) (now : String) :
    (handle_message { text := some t, username := u } now = Reply.invalidAmount
       ↔ parse_f64 t = none)
    ∧ (∀ a, parse_f64 t = some a →
        handle_message { text := some t, username := u } now
          = Reply.expensePrompt
              { amount := a, timestamp := now, user := u.getD "unknown",
                account := "default_account", currency := "USD" })
    ∧ (parse_f64 "-5").isSome = true
    ∧ (parse_f64 "inf").isSome = true
    ∧ (parse_f64 "NaN").isSome = true
    ∧ parse_f64 "abc" = none := by
  refine ⟨?_, ?_, by decide, by decide, by decide, by decide⟩
  · cases hp : parse_f64 t <;> simp [handle_message, hp]
  · intro a ha
    simp [handle_message, ha]

/-- Claim C7, witness: the amended theorem applied to the non-numeric
input "abc". -/
theorem C7_witness :
    handle_message { text := some "abc", username := none } "T" = Reply.invalidAmount :=
  ((C7_amended "abc" none "T").1).mpr (by decide)

/-! ## Claim C9 -/

/-- Claim C9: get_accounts and get_categories return fixed constant
three-element lists with ids 1, 2 and 3 for every model, the rows
seeded by fill_test_data are not reflected in either listing, and
every new draft built by make_active_transaction defaults to the
hardcoded account and category entries with id 1. -/
theorem C9_hardcoded_reference_data (m : Model) (now : String) :
    m.get_accounts
      = [ { id := 1, display_name := "User1" }, { id := 2, display_name := "User2" },
          { id := 3, display_name := "User3" } ]
    ∧ m.get_categories
      = [ { id := 1, display_name := "Category 1" }, { id := 2, display_name := "Category 2" },
          { id := 3, display_name := "Category 3" } ]
    ∧ m.fill_test_data.get_accounts = m.get_accounts
    ∧ m.fill_test_data.get_categories = m.get_categories
    ∧ m.make_active_transaction now
      = some { amount := 123, comments := "My comments", user_name := "My user",
               timestamp := now,
               account_info := { id := 1, display_name := "User1" },
               category_info := { id := 1, display_name := "Category 1" } } :=
  ⟨rfl, rfl, rfl, rfl, rfl⟩

/-! ## Claim C10 -/

/-- Claim C10: for every model and every id, get_account_info returns
some account carrying that id exactly when some element of
get_accounts has that id, which happens exactly for the ids 1, 2 and
3; for every other id it returns none (and, being a total function of
the embedding, it never panics). -/
theorem C10_get_account_info (m : Model) (n : Nat) :
    ((∃ a, m.get_account_info n = some a ∧ a.id = n) ↔ ∃ a ∈ m.get_accounts, a.id = n)
    ∧ ((∃ a ∈ m.get_accounts, a.id = n) ↔ n = 1 ∨ n = 2 ∨ n = 3)
    ∧ (n ≠ 1 → n ≠ 2 → n ≠ 3 → m.get_account_info n = none) := by
  by_cases h1 : n = 1
  · subst h1
    refine ⟨?_, ?_, ?_⟩ <;> simp [get_account_info_eq, Model.get_accounts]
  · by_cases h2 : n = 2
    · subst h2
      refine ⟨?_, ?_, ?_⟩ <;> simp [get_account_info_eq, Model.get_accounts]
    · by_cases h3 : n = 3
      · subst h3
        refine ⟨?_, ?_, ?_⟩ <;> simp [get_account_info_eq, Model.get_accounts]
      · refine ⟨?_, ?_, ?_⟩ <;>
          simp [get_account_info_eq, Model.get_accounts, h1, h2, h3,
                Ne.symm h1, Ne.symm h2, Ne.symm h3]

/-- Claim C10, witness: the theorem applied to the model of a fresh
store and the absent id 5. -/
theorem C10_witness : Model.new.get_account_info 5 = none :=
  (C10_get_account_info Model.new 5).2.2 (by decide) (by decide) (by decide)
